import Mathlib

/-!
Verification of the platform-weight / hoarding-enforcement economy of the
gemsmud repository (zone_monitor.py, economy.py, scripts.py, npcs.py,
command.py), shallowly embedded in Lean 4.

Python integers become `Int`/`Nat`; Python float arithmetic on weights,
ratios and multipliers is embedded as exact rational arithmetic `ℚ`;
Python's `int(x)` truncation toward zero becomes `truncToInt`; Python's
floor division `//` becomes `Int.fdiv`.
-/

namespace GemsMud

/-- Python `int(x)`: truncation toward zero. -/
def truncToInt (q : ℚ) : ℤ :=
  if 0 ≤ q then ⌊q⌋ else ⌈q⌉

/- ---------------------------------------------------------------------
   Station ash pool (src/world/economy.py)

   The pool value lives on the ItemMonitorScript singleton; both
   operations first look the script up and bail out when it does not
   exist.  We model that lookup as the boolean `scriptExists` and the
   stored value `script.db.station_ash_pool or 0` as an integer `pool`.
   --------------------------------------------------------------------- -/

/-- `debit_station_pool(amount)` from src/world/economy.py:
returns `(success, new pool)`.  Fails (pool unchanged) when the script is
missing or when `current < amount`; otherwise stores `current - amount`. -/
def debit_station_pool (scriptExists : Bool) (pool amount : ℤ) : Bool × ℤ :=
  if !scriptExists then (false, pool)
  else if pool < amount then (false, pool)
  else (true, pool - amount)

/-- `credit_station_pool(amount)` from src/world/economy.py: stores
`min(current + amount, cap)` where `cap` is `STATION_MAX_ASH_POOL`
(default 2000); a no-op when the script is missing. -/
def credit_station_pool (scriptExists : Bool) (cap pool amount : ℤ) : ℤ :=
  if !scriptExists then pool
  else min (pool + amount) cap

/-- Default `STATION_MAX_ASH_POOL`. -/
def STATION_MAX_ASH_POOL : ℤ := 2000

/- ---------------------------------------------------------------------
   Danger levels (src/world/zone_monitor.py)
   --------------------------------------------------------------------- -/

inductive Level where
  | safe
  | warning
  | critical
  | sinking
deriving DecidableEq, Repr

/-- Ordinal of a danger level: SAFE < WARNING < CRITICAL < SINKING. -/
def Level.ord : Level → ℕ
  | .safe => 0
  | .warning => 1
  | .critical => 2
  | .sinking => 3

/-- Classify a ratio against the `THRESHOLDS` table of
src/world/zone_monitor.py (sinking 1.0, critical 0.90, warning 0.75). -/
def classifyRatio (r : ℚ) : Level :=
  if 1 ≤ r then .sinking
  else if 9/10 ≤ r then .critical
  else if 3/4 ≤ r then .warning
  else .safe

/-- `get_danger_level(count)` from src/world/zone_monitor.py with the
count supplied by the caller: `ratio = count / max(limit, 1)`, then the
threshold cascade.  Returns just the level (the count and limit are
echoed back unchanged by the Python function). -/
def get_danger_level (limit count : ℤ) : Level :=
  classifyRatio ((count : ℚ) / (max limit 1 : ℤ))

/- ---------------------------------------------------------------------
   World snapshot objects

   A snapshot entity carries exactly the attributes the weight model and
   the pricing engine read: the typeclass-exclusion flag, the db-attribute
   flags `material`, `displayed`, `artwork` (stored as string "true"),
   `cursed`, `edible`, `readable_text`, the "clothing"-in-typeclass-path
   test, and the key-substring tests ("cheese"/"ice cream", "book").
   --------------------------------------------------------------------- -/

structure WObj where
  excludedType : Bool
  material : Bool
  displayed : Bool
  artwork : Bool
  cursed : Bool
  clothing : Bool
  foodKey : Bool
  edible : Bool
  bookKey : Bool
  readable : Bool
deriving DecidableEq, Repr

/-- Default `MATERIAL_WEIGHT_FRACTION` from src/world/materials.py. -/
def MATERIAL_WEIGHT_FRACTION : ℚ := 33/100

/-- Default `DISPLAY_WEIGHT_FRACTION`. -/
def DISPLAY_WEIGHT_FRACTION : ℚ := 1/2

/-- Default `MASTERPIECE_WEIGHT_FRACTION`. -/
def MASTERPIECE_WEIGHT_FRACTION : ℚ := 1/2

/-- Default `PLAYER_BODY_WEIGHT`. -/
def PLAYER_BODY_WEIGHT : ℚ := 5

/-- The pre-truncation weighted platform load of `get_item_count` from
src/world/zone_monitor.py: raw count of non-excluded objects, materials
adjusted from 1 to `materialFrac`, displayed non-material objects
adjusted from 1 to `displayFrac`, artwork objects that are neither
material nor displayed adjusted from 1 to `masterFrac`, plus
`playerCount * playerWeight`. -/
def weightedTotal (materialFrac displayFrac masterFrac playerWeight : ℚ)
    (world : List WObj) (playerCount : ℕ) : ℚ :=
  let total : ℤ := world.length
  let excluded : ℤ := (world.filter (·.excludedType)).length
  let raw_items : ℚ := ((total - excluded : ℤ) : ℚ)
  let material_count : ℚ := ((world.filter (·.material)).length : ℚ)
  let display_count : ℚ :=
    ((world.filter (fun o => o.displayed && !o.material)).length : ℚ)
  let masterpiece_count : ℚ :=
    ((world.filter (fun o => o.artwork && !o.material && !o.displayed)).length : ℚ)
  raw_items - material_count + material_count * materialFrac
    - display_count + display_count * displayFrac
    - masterpiece_count + masterpiece_count * masterFrac
    + (playerCount : ℚ) * playerWeight

/-- `get_item_count()` from src/world/zone_monitor.py: the weighted total
truncated to an integer by Python `int(...)`. -/
def get_item_count (materialFrac displayFrac masterFrac playerWeight : ℚ)
    (world : List WObj) (playerCount : ℕ) : ℤ :=
  truncToInt (weightedTotal materialFrac displayFrac masterFrac playerWeight
    world playerCount)

/- ---------------------------------------------------------------------
   Pricing (src/world/economy.py)
   --------------------------------------------------------------------- -/

inductive Category where
  | cursed
  | artwork
  | garment
  | food
  | book
  | base
deriving DecidableEq, Repr

/-- `_get_item_category(obj)` from src/world/economy.py: the first match
in the priority order cursed, artwork, clothing typeclass, food (key
substring or edible), book (key substring or readable_text), base. -/
def get_item_category (o : WObj) : Category :=
  if o.cursed then .cursed
  else if o.artwork then .artwork
  else if o.clothing then .garment
  else if o.foodKey || o.edible then .food
  else if o.bookKey || o.readable then .book
  else .base

/-- `SCARCITY_BASELINES` table from src/world/economy.py. -/
def SCARCITY_BASELINES : Category → ℕ
  | .cursed => 5
  | .artwork => 10
  | .garment => 20
  | .food => 15
  | .book => 15
  | .base => 30

def SCARCITY_MIN : ℚ := 1/4

def SCARCITY_MAX : ℚ := 3

/-- `_count_category(category)` from src/world/economy.py: attribute /
typeclass searches over the whole world, except the `base` category,
which returns the fixed estimate `max(1, SCARCITY_BASELINES["base"])`. -/
def count_category (c : Category) (world : List WObj) : ℕ :=
  match c with
  | .cursed => (world.filter (·.cursed)).length
  | .artwork => (world.filter (·.artwork)).length
  | .garment => (world.filter (·.clothing)).length
  | .food => (world.filter (·.edible)).length
  | .book => (world.filter (·.readable)).length
  | .base => max 1 (SCARCITY_BASELINES .base)

/-- `_scarcity_multiplier(category)` from src/world/economy.py:
`baseline / count` clamped into `[SCARCITY_MIN, SCARCITY_MAX]`, and
`SCARCITY_MAX` outright when the count is zero. -/
def scarcity_multiplier (c : Category) (world : List WObj) : ℚ :=
  let baseline := SCARCITY_BASELINES c
  let count := count_category c world
  if count ≤ 0 then SCARCITY_MAX
  else max SCARCITY_MIN (min SCARCITY_MAX ((baseline : ℚ) / (count : ℚ)))

/-- `_base_buy_price(obj)` from src/world/economy.py with the default
settings (SHOP_CURSED_BUY_PRICE 2, SHOP_MASTERPIECE_PRICE 50,
SHOP_GARMENT_PRICE 12, SHOP_FOOD_PRICE 4, SHOP_BOOK_PRICE 4,
SHOP_BASE_PRICE 5). -/
def base_buy_price (o : WObj) : ℤ :=
  match get_item_category o with
  | .cursed => 2
  | .artwork => 50
  | .garment => 12
  | .food => 4
  | .book => 4
  | .base => 5

/-- `get_buy_price(obj)` from src/world/economy.py:
`max(1, int(base * mult))`. -/
def get_buy_price (world : List WObj) (o : WObj) : ℤ :=
  max 1 (truncToInt ((base_buy_price o : ℚ) *
    scarcity_multiplier (get_item_category o) world))

/-- Default `SHOP_SELL_FRACTION`. -/
def SHOP_SELL_FRACTION : ℚ := 2/5

/-- Default `SHOP_CURSED_SELL_PRICE`. -/
def SHOP_CURSED_SELL_PRICE : ℤ := 4

/-- `get_sell_price(obj)` from src/world/economy.py: cursed items use
their own base with the scarcity multiplier; everything else is
`max(1, int(buy * SHOP_SELL_FRACTION))`. -/
def get_sell_price (world : List WObj) (o : WObj) : ℤ :=
  if get_item_category o = .cursed then
    max 1 (truncToInt ((SHOP_CURSED_SELL_PRICE : ℚ) *
      scarcity_multiplier .cursed world))
  else
    max 1 (truncToInt ((get_buy_price world o : ℚ) * SHOP_SELL_FRACTION))

/- ---------------------------------------------------------------------
   Hoarding report (src/commands/command.py, CmdReport.func)
   --------------------------------------------------------------------- -/

/-- Per-target state read and written by a report: the
`under_investigation` flag, `hoarding_offenses or 0`, `ash_tokens or 0`,
and the station pool the fine is credited to. -/
structure ReportState where
  underInvestigation : Bool
  offenses : ℕ
  targetAsh : ℤ
  pool : ℤ
deriving DecidableEq, Repr

inductive ReportOutcome where
  | notHoarding
  | addedToOngoing
  | investigation
  | fined (amount : ℤ)
deriving DecidableEq, Repr

/-- Default `HOARDING_MINOR_THRESHOLD`. -/
def HOARDING_MINOR_THRESHOLD : ℕ := 10

/-- Default `HOARDING_MAJOR_THRESHOLD`. -/
def HOARDING_MAJOR_THRESHOLD : ℕ := 20

/-- Default `HOARDING_FINE_SCHEDULE`. -/
def HOARDING_FINE_SCHEDULE : List ℤ := [5, 15, 0]

/-- `CmdReport.func` from src/commands/command.py, after the target has
been resolved to another character: below the minor threshold nothing
happens; a target already under investigation only gets the report added
to the ongoing case; at or above the major threshold an investigation is
opened immediately; otherwise `fine = fine_schedule[offenses]` (0 when
the schedule is exhausted), a zero fine escalates to an investigation,
and a nonzero fine is deducted from the target, credited to the station
pool via `credit_station_pool`, and bumps the offense counter. -/
def cmdReportFunc (minorThreshold majorThreshold : ℕ) (fineSchedule : List ℤ)
    (cap : ℤ) (itemCount : ℕ) (st : ReportState) :
    ReportOutcome × ReportState :=
  if itemCount < minorThreshold then (.notHoarding, st)
  else if st.underInvestigation then (.addedToOngoing, st)
  else if majorThreshold ≤ itemCount then
    (.investigation, { st with underInvestigation := true })
  else
    let fine := fineSchedule.getD st.offenses 0
    if fine = 0 then
      (.investigation, { st with underInvestigation := true })
    else
      (.fined fine,
        { st with
            targetAsh := st.targetAsh - fine
            offenses := st.offenses + 1
            pool := credit_station_pool true cap st.pool fine })

/- ---------------------------------------------------------------------
   Enforcement EXECUTE phase (src/typeclasses/npcs.py,
   RobotBehaviorScript._phase_execute)
   --------------------------------------------------------------------- -/

/-- A stored reporter reference: `alive` models `r and r.pk` (the
character still exists in the database). -/
structure Reporter where
  alive : Bool
  ash : ℤ
deriving DecidableEq, Repr

/-- The target state the EXECUTE phase mutates: ash balance, offense
counter, investigation flag, and the number of carried items. -/
structure ExecTarget where
  ash : ℤ
  offenses : ℕ
  underInvestigation : Bool
  inventory : ℕ
deriving DecidableEq, Repr

/-- Default `EUTHANASIA_DEBT`. -/
def EUTHANASIA_DEBT : ℤ := 50

/-- Default `EUTHANASIA_REWARD`. -/
def EUTHANASIA_REWARD : ℤ := 25

/-- `RobotBehaviorScript._phase_execute` from src/typeclasses/npcs.py,
restricted to its state mutations: when the target reference is invalid
the phase jumps to cleanup mutating nothing; otherwise every carried
item is deleted, the ash balance is overwritten to `-(debt)`, the
offense counter and investigation flag are reset, and every reporter
that still exists receives `max(1, reward // living_count)` ash
(Python `//` is floor division, `Int.fdiv`). -/
def phase_execute (debt reward : ℤ) (targetValid : Bool)
    (target : ExecTarget) (reporters : List Reporter) :
    ExecTarget × List Reporter :=
  if !targetValid then (target, reporters)
  else
    let livingCount := (reporters.filter (·.alive)).length
    let share := max 1 (Int.fdiv reward (livingCount : ℤ))
    ({ ash := -debt, offenses := 0, underInvestigation := false,
       inventory := 0 },
     reporters.map (fun r => if r.alive then { r with ash := r.ash + share }
       else r))

/- ---------------------------------------------------------------------
   Monitor broadcast cadence (src/typeclasses/scripts.py,
   ItemMonitorScript.at_repeat)
   --------------------------------------------------------------------- -/

/-- The broadcast decision of `ItemMonitorScript.at_repeat`: broadcast
when the freshly computed level differs from the cached one and is not
SAFE, or whenever the fresh level is CRITICAL or SINKING. -/
def should_broadcast (old_level level : Level) : Bool :=
  if level ≠ old_level ∧ level ≠ .safe then true
  else if level = .critical ∨ level = .sinking then true
  else false

/- ---------------------------------------------------------------------
   Auxiliary definitions used by the theorems
   --------------------------------------------------------------------- -/

/-- A non-material, non-excluded artwork sitting on a display shelf:
`artwork = "true"` and `displayed = True`, nothing else set. -/
def displayedMasterpiece : WObj :=
  ⟨false, false, true, true, false, false, false, false, false, false⟩

/-- Spec-side definition ("the number of live instances of that category
counted across the whole world"): the number of world objects whose
pricing category per `_get_item_category` is `c`.  Used only to compare
the spec's wording with `count_category` from the source. -/
def specLiveCount (c : Category) (world : List WObj) : ℕ :=
  (world.filter (fun o => get_item_category o = c)).length

/-- `clamp(x, lo, hi)` as the spec writes it. -/
def clampQ (lo hi x : ℚ) : ℚ := max lo (min hi x)

/- ---------------------------------------------------------------------
   Helper lemmas
   --------------------------------------------------------------------- -/

lemma truncToInt_of_nonneg {q : ℚ} (h : 0 ≤ q) : truncToInt q = ⌊q⌋ :=
  if_pos h

/- ---------------------------------------------------------------------
   C5 / C6 / C10: the station ash pool
   --------------------------------------------------------------------- -/

/-- C5: for every amount, `debit_station_pool` succeeds and decreases the
pool by exactly the amount when the pool covers it, and fails leaving the
pool unchanged otherwise; for a non-negative amount a debit never drives
a non-negative pool negative. -/
theorem C5_debit_all_or_nothing (pool amount : ℤ) :
    (amount ≤ pool →
      debit_station_pool true pool amount = (true, pool - amount))
    ∧ (pool < amount →
      debit_station_pool true pool amount = (false, pool))
    ∧ (0 ≤ amount → 0 ≤ pool →
      0 ≤ (debit_station_pool true pool amount).2) := by
  unfold debit_station_pool
  refine ⟨?_, ?_, ?_⟩
  · intro h
    simp [not_lt.mpr h]
  · intro h
    simp [h]
  · intro ha hp
    split_ifs <;> simp <;> omega

/-- C5 witness: at pool 0 and amount 10 the debit fails, the pool stays
0, and the resulting pool is non-negative. -/
theorem C5_debit_all_or_nothing_witness :
    debit_station_pool true 0 10 = (false, 0)
    ∧ 0 ≤ (debit_station_pool true 0 10).2 :=
  ⟨(C5_debit_all_or_nothing 0 10).2.1 (by norm_num),
   (C5_debit_all_or_nothing 0 10).2.2 (by norm_num) (le_refl 0)⟩

/-- C6: `credit_station_pool` never leaves the pool above the cap, and
for a non-negative pool and non-negative `x` with `pool + x ≤ cap`,
credit of `x` followed by debit of `x` succeeds and restores the
original pool. -/
theorem C6_credit_clamp_roundtrip (cap pool x : ℤ) (hpool : 0 ≤ pool)
    (hx : 0 ≤ x) (hcap : pool + x ≤ cap) :
    (∀ p a : ℤ, credit_station_pool true cap p a ≤ cap)
    ∧ credit_station_pool true cap pool x = pool + x
    ∧ debit_station_pool true (credit_station_pool true cap pool x) x =
        (true, pool) := by
  have hcredit : credit_station_pool true cap pool x = pool + x := by
    unfold credit_station_pool
    simp [min_eq_left hcap]
  refine ⟨?_, hcredit, ?_⟩
  · intro p a
    unfold credit_station_pool
    simp [min_le_right]
  · rw [hcredit]
    unfold debit_station_pool
    have hnlt : ¬pool + x < x := by omega
    simp [hnlt]

/-- C6 witness: cap 2000, pool 0, x 100: the credit stores 100 and the
following debit succeeds and returns the pool to 0. -/
theorem C6_credit_clamp_roundtrip_witness :
    credit_station_pool true 2000 0 100 = 100
    ∧ debit_station_pool true (credit_station_pool true 2000 0 100) 100 =
        (true, 0) := by
  have h := C6_credit_clamp_roundtrip 2000 0 100 (by norm_num) (by norm_num)
    (by norm_num)
  exact ⟨by simpa using h.2.1, h.2.2⟩

/-- C10: `debit_station_pool` puts no lower bound on the amount: a
negative amount against a non-negative pool always passes the
sufficiency check, succeeds, strictly increases the pool, and at the
configured maximum a negative debit pushes the pool above the cap. -/
theorem C10_negative_debit (pool amount : ℤ) (hpool : 0 ≤ pool)
    (hneg : amount < 0) :
    amount ≤ pool
    ∧ debit_station_pool true pool amount = (true, pool - amount)
    ∧ pool < pool - amount
    ∧ STATION_MAX_ASH_POOL <
        (debit_station_pool true STATION_MAX_ASH_POOL (-1)).2 := by
  have hle : amount ≤ pool := by omega
  refine ⟨hle, ?_, by omega, by decide⟩
  unfold debit_station_pool
  simp [not_lt.mpr hle]

/-- C10 witness: pool 2000 (the default cap), amount -1: the debit
succeeds and leaves the pool at 2001, above the cap. -/
theorem C10_negative_debit_witness :
    debit_station_pool true 2000 (-1) = (true, 2001)
    ∧ (2000 : ℤ) < 2001 := by
  have h := C10_negative_debit 2000 (-1) (by norm_num) (by norm_num)
  refine ⟨by simpa using h.2.1, by norm_num⟩

/- ---------------------------------------------------------------------
   C2: monitor broadcast cadence
   --------------------------------------------------------------------- -/

/-- C2 counterexample: with cached level CRITICAL and freshly computed
level WARNING — a strictly downward transition whose new level is
neither SAFE, CRITICAL nor SINKING — `at_repeat` does broadcast, while
the claim says downward transitions such as CRITICAL to WARNING are
silent. -/
theorem C2_counterexample :
    should_broadcast .critical .warning = true
    ∧ Level.ord .warning < Level.ord .critical
    ∧ Level.warning ≠ Level.safe
    ∧ Level.warning ≠ Level.critical
    ∧ Level.warning ≠ Level.sinking := by
  decide

/-- C2 amended: a warning broadcast is sent exactly when the fresh level
differs from the cached one and is not SAFE (whether the transition is
upward or downward), or on every tick while the fresh level is CRITICAL
or SINKING; in particular any tick whose fresh level is SAFE broadcasts
nothing. -/
theorem C2_amended :
    ∀ old level : Level,
      (should_broadcast old level = true ↔
        ((level ≠ old ∧ level ≠ .safe)
          ∨ level = .critical ∨ level = .sinking))
      ∧ should_broadcast old .safe = false := by
  intro old level
  cases old <;> cases level <;> decide

/-- C2 amended witness: a tick moving the level from SAFE to CRITICAL
broadcasts. -/
theorem C2_amended_witness :
    should_broadcast .safe .critical = true :=
  (C2_amended .safe .critical).1.mpr (Or.inr (Or.inl rfl))

/- ---------------------------------------------------------------------
   C8: danger classification
   --------------------------------------------------------------------- -/

lemma classifyRatio_ord_mono {r1 r2 : ℚ} (h : r1 ≤ r2) :
    (classifyRatio r1).ord ≤ (classifyRatio r2).ord := by
  unfold classifyRatio
  split_ifs <;> simp_all [Level.ord] <;> linarith

lemma classifyRatio_eq_sinking {r : ℚ} :
    classifyRatio r = .sinking ↔ 1 ≤ r := by
  unfold classifyRatio
  split_ifs <;> simp_all

lemma classifyRatio_eq_critical {r : ℚ} :
    classifyRatio r = .critical ↔ 9/10 ≤ r ∧ r < 1 := by
  unfold classifyRatio
  split_ifs <;> simp_all

lemma classifyRatio_eq_warning {r : ℚ} :
    classifyRatio r = .warning ↔ 3/4 ≤ r ∧ r < 9/10 := by
  unfold classifyRatio
  split_ifs <;> simp_all
  intros
  linarith

lemma classifyRatio_eq_safe {r : ℚ} :
    classifyRatio r = .safe ↔ r < 3/4 := by
  unfold classifyRatio
  split_ifs <;> simp_all <;> linarith

/-- C8: for a positive limit the danger level is monotone in the count
(SAFE < WARNING < CRITICAL < SINKING by ordinal), a count equal to the
limit classifies as SINKING (boundary inclusive), and the thresholds on
the ratio `count / limit` are exactly ≥ 1 SINKING, ≥ 0.90 CRITICAL,
≥ 0.75 WARNING, else SAFE. -/
theorem C8_danger_level_monotone (limit c1 c2 : ℤ) (hlim : 1 ≤ limit)
    (h12 : c1 ≤ c2) :
    (get_danger_level limit c1).ord ≤ (get_danger_level limit c2).ord
    ∧ get_danger_level limit limit = .sinking
    ∧ (get_danger_level limit c1 = .sinking ↔
        1 ≤ (c1 : ℚ) / (limit : ℚ))
    ∧ (get_danger_level limit c1 = .critical ↔
        9/10 ≤ (c1 : ℚ) / (limit : ℚ) ∧ (c1 : ℚ) / (limit : ℚ) < 1)
    ∧ (get_danger_level limit c1 = .warning ↔
        3/4 ≤ (c1 : ℚ) / (limit : ℚ) ∧ (c1 : ℚ) / (limit : ℚ) < 9/10)
    ∧ (get_danger_level limit c1 = .safe ↔
        (c1 : ℚ) / (limit : ℚ) < 3/4) := by
  have hmax : max limit 1 = limit := max_eq_left hlim
  have hpos : (0 : ℚ) < (limit : ℚ) := by
    exact_mod_cast lt_of_lt_of_le Int.zero_lt_one hlim
  have hne : (limit : ℚ) ≠ 0 := ne_of_gt hpos
  unfold get_danger_level
  rw [hmax]
  refine ⟨?_, ?_, classifyRatio_eq_sinking, classifyRatio_eq_critical,
    classifyRatio_eq_warning, classifyRatio_eq_safe⟩
  · exact classifyRatio_ord_mono
      (div_le_div_of_nonneg_right (by exact_mod_cast h12) hpos.le)
  · rw [div_self hne]
    exact classifyRatio_eq_sinking.mpr le_rfl

/-- C8 witness: with limit 1000, counts 900 and 1000: the level does not
decrease from 900 to 1000, a count of exactly 1000 is SINKING, and 900
(ratio 0.9) is CRITICAL. -/
theorem C8_danger_level_monotone_witness :
    (get_danger_level 1000 900).ord ≤ (get_danger_level 1000 1000).ord
    ∧ get_danger_level 1000 1000 = .sinking
    ∧ get_danger_level 1000 900 = .critical := by
  have h := C8_danger_level_monotone 1000 900 1000 (by norm_num)
    (by norm_num)
  exact ⟨h.1, h.2.1, h.2.2.2.1.mpr (by norm_num)⟩

/- ---------------------------------------------------------------------
   C9: pricing bounds
   --------------------------------------------------------------------- -/

/-- C9: every buy and sell price is at least 1, and for a non-cursed
item the sell price (the buy price times the sell fraction, truncated,
floored at 1) never exceeds the buy price. -/
theorem C9_price_bounds (world : List WObj) (o : WObj) :
    1 ≤ get_buy_price world o
    ∧ 1 ≤ get_sell_price world o
    ∧ (get_item_category o ≠ .cursed →
        get_sell_price world o ≤ get_buy_price world o) := by
  have hbuy1 : (1 : ℤ) ≤ get_buy_price world o := by
    unfold get_buy_price
    exact le_max_left _ _
  refine ⟨hbuy1, ?_, ?_⟩
  · unfold get_sell_price
    split_ifs <;> exact le_max_left _ _
  · intro hnc
    unfold get_sell_price
    rw [if_neg hnc]
    have hq0 : (0 : ℚ) ≤ (get_buy_price world o : ℚ) * SHOP_SELL_FRACTION := by
      have : (0 : ℚ) ≤ (get_buy_price world o : ℚ) := by
        exact_mod_cast le_trans zero_le_one hbuy1
      unfold SHOP_SELL_FRACTION
      positivity
    rw [truncToInt_of_nonneg hq0]
    apply max_le hbuy1
    have hle : (get_buy_price world o : ℚ) * SHOP_SELL_FRACTION ≤
        (get_buy_price world o : ℚ) := by
      have h0 : (0 : ℚ) ≤ (get_buy_price world o : ℚ) := by
        exact_mod_cast le_trans zero_le_one hbuy1
      unfold SHOP_SELL_FRACTION
      nlinarith
    calc ⌊(get_buy_price world o : ℚ) * SHOP_SELL_FRACTION⌋
        ≤ ⌊((get_buy_price world o : ℤ) : ℚ)⌋ := Int.floor_le_floor hle
      _ = get_buy_price world o := Int.floor_intCast _

/-- C9 witness: the empty world and a plain (all-flags-false) item:
buy price 5, sell price 2, both at least 1 and sell ≤ buy. -/
theorem C9_price_bounds_witness :
    1 ≤ get_buy_price [] ⟨false, false, false, false, false, false,
      false, false, false, false⟩
    ∧ 1 ≤ get_sell_price [] ⟨false, false, false, false, false, false,
      false, false, false, false⟩
    ∧ get_sell_price [] ⟨false, false, false, false, false, false,
        false, false, false, false⟩ ≤
      get_buy_price [] ⟨false, false, false, false, false, false,
        false, false, false, false⟩ := by
  have h := C9_price_bounds [] ⟨false, false, false, false, false, false,
    false, false, false, false⟩
  exact ⟨h.1, h.2.1, h.2.2 (by decide)⟩

/- ---------------------------------------------------------------------
   C3: the hoarding report
   --------------------------------------------------------------------- -/

/-- C3: a report against a target not under investigation with at least
the minor item count: at or above the major threshold it opens an
investigation with no fine and no offense change; below the major
threshold a nonzero in-schedule fine is deducted from the target,
credited to the station pool, and bumps the offense counter by exactly
1; a zero (sentinel) schedule entry or an exhausted schedule opens an
investigation instead, leaving ash, pool and offense counter alone. -/
theorem C3_report_fine_schedule (minor major : ℕ) (sched : List ℤ)
    (cap : ℤ) (count : ℕ) (st : ReportState)
    (hInv : st.underInvestigation = false) (hMinor : minor ≤ count) :
    (major ≤ count →
      cmdReportFunc minor major sched cap count st =
        (.investigation, { st with underInvestigation := true }))
    ∧ (count < major → st.offenses < sched.length →
        sched.getD st.offenses 0 ≠ 0 →
        cmdReportFunc minor major sched cap count st =
          (.fined (sched.getD st.offenses 0),
            { st with
                targetAsh := st.targetAsh - sched.getD st.offenses 0
                offenses := st.offenses + 1
                pool := credit_station_pool true cap st.pool
                  (sched.getD st.offenses 0) }))
    ∧ (count < major →
        (sched.length ≤ st.offenses ∨ sched.getD st.offenses 0 = 0) →
        cmdReportFunc minor major sched cap count st =
          (.investigation, { st with underInvestigation := true })) := by
  have hnm : ¬count < minor := Nat.not_lt.mpr hMinor
  refine ⟨?_, ?_, ?_⟩
  · intro h
    simp [cmdReportFunc, hnm, hInv, h]
  · intro h _ hne
    simp [cmdReportFunc, hnm, hInv, Nat.not_le.mpr h, hne]
    simpa [List.getD] using hne
  · intro h hcase
    have hz : sched.getD st.offenses 0 = 0 := by
      rcases hcase with hc | hc
      · exact List.getD_eq_default _ _ hc
      · exact hc
    simp [cmdReportFunc, hnm, hInv, Nat.not_le.mpr h, hz]
    simpa [List.getD] using hz

/-- C3 witness: thresholds 10/20, schedule [5, 15, 0], cap 2000: a first
report at 12 items fines 5 (ash 100 → 95, pool 0 → 5, offenses 0 → 1). -/
theorem C3_report_fine_schedule_witness :
    cmdReportFunc 10 20 [5, 15, 0] 2000 12 ⟨false, 0, 100, 0⟩ =
      (.fined 5, ⟨false, 1, 95, credit_station_pool true 2000 0 5⟩) := by
  have h := (C3_report_fine_schedule 10 20 [5, 15, 0] 2000 12
    ⟨false, 0, 100, 0⟩ rfl (by norm_num)).2.1 (by norm_num) (by norm_num)
    (by norm_num)
  simpa using h

/- ---------------------------------------------------------------------
   C4: the enforcement EXECUTE phase
   --------------------------------------------------------------------- -/

/-- C4: with a valid target, the EXECUTE phase produces the same target
state whatever the prior target state was; that state has ash exactly
`-debt`, an empty inventory, offense counter 0 and the investigation
flag cleared; and every still-existing reporter gains exactly
`max(1, reward // living_count)` ash while dead references are left
alone. -/
theorem C4_execute_overwrites (debt reward : ℤ) (t1 t2 : ExecTarget)
    (reporters : List Reporter) :
    (phase_execute debt reward true t1 reporters).1 =
      (phase_execute debt reward true t2 reporters).1
    ∧ (phase_execute debt reward true t1 reporters).1 =
        ⟨-debt, 0, false, 0⟩
    ∧ (phase_execute debt reward true t1 reporters).2 =
        reporters.map (fun r =>
          if r.alive then
            ⟨r.alive, r.ash + max 1 (Int.fdiv reward
              (((reporters.filter (·.alive)).length : ℤ)))⟩
          else r) := by
  refine ⟨rfl, rfl, ?_⟩
  simp only [phase_execute, Bool.not_true, Bool.false_eq_true, if_false]

/- ---------------------------------------------------------------------
   C1: the displayed masterpiece's weight contribution
   --------------------------------------------------------------------- -/

/-- C1 counterexample: a world holding exactly one displayed,
non-material masterpiece weighs 0.5, not the claimed 0.25, and with four
copies `get_item_count` returns 2 where the claim predicts 1: the
masterpiece fraction is skipped for displayed items, it does not stack
under the display fraction. -/
theorem C1_counterexample :
    weightedTotal MATERIAL_WEIGHT_FRACTION DISPLAY_WEIGHT_FRACTION
        MASTERPIECE_WEIGHT_FRACTION PLAYER_BODY_WEIGHT
        [displayedMasterpiece] 0 = 1/2
    ∧ get_item_count MATERIAL_WEIGHT_FRACTION DISPLAY_WEIGHT_FRACTION
        MASTERPIECE_WEIGHT_FRACTION PLAYER_BODY_WEIGHT
        (List.replicate 4 displayedMasterpiece) 0 = 2
    ∧ ((1 : ℚ)/2 ≠ 1/4)
    ∧ ((2 : ℤ) ≠ 1) := by
  refine ⟨?_, ?_, by norm_num, by norm_num⟩
  · norm_num [weightedTotal, displayedMasterpiece, List.filter,
      MATERIAL_WEIGHT_FRACTION, DISPLAY_WEIGHT_FRACTION,
      MASTERPIECE_WEIGHT_FRACTION, PLAYER_BODY_WEIGHT]
  · norm_num [get_item_count, weightedTotal, truncToInt,
      displayedMasterpiece, List.replicate, List.filter,
      MATERIAL_WEIGHT_FRACTION, DISPLAY_WEIGHT_FRACTION,
      MASTERPIECE_WEIGHT_FRACTION, PLAYER_BODY_WEIGHT]

/-- C1 amended: a displayed, non-material, non-excluded masterpiece
contributes exactly the display fraction 0.5 to the weighted platform
total — the display fraction replaces the item's default weight of 1,
and the masterpiece fraction applies only to non-displayed artwork. -/
theorem C1_amended (world : List WObj) (playerCount : ℕ) :
    weightedTotal MATERIAL_WEIGHT_FRACTION DISPLAY_WEIGHT_FRACTION
        MASTERPIECE_WEIGHT_FRACTION PLAYER_BODY_WEIGHT
        (displayedMasterpiece :: world) playerCount =
      weightedTotal MATERIAL_WEIGHT_FRACTION DISPLAY_WEIGHT_FRACTION
          MASTERPIECE_WEIGHT_FRACTION PLAYER_BODY_WEIGHT world playerCount
        + DISPLAY_WEIGHT_FRACTION := by
  simp only [weightedTotal, displayedMasterpiece, List.filter_cons]
  norm_num [DISPLAY_WEIGHT_FRACTION]
  ring

/- ---------------------------------------------------------------------
   C7: the scarcity multiplier
   --------------------------------------------------------------------- -/

/-- C7 counterexample: in the empty world the `base` category has zero
live instances, so the claim predicts the multiplier 3.0 (MAX); the code
never counts `base` items — `_count_category` returns the fixed estimate
30 — so the multiplier is 1.0. -/
theorem C7_counterexample :
    specLiveCount .base [] = 0
    ∧ scarcity_multiplier .base [] = 1
    ∧ ((1 : ℚ) ≠ 3) := by
  refine ⟨rfl, ?_, by norm_num⟩
  norm_num [scarcity_multiplier, count_category, SCARCITY_BASELINES,
    SCARCITY_MIN, SCARCITY_MAX]

/-- C7 amended: for every category except `base` the multiplier is
`clamp(baseline / count, 0.25, 3.0)` where `count` is the attribute /
typeclass search count of `_count_category`, and 3.0 (MAX) when that
count is 0; for `base` the count is the fixed estimate 30 (never a live
count), so the base multiplier is always exactly 1.0. -/
theorem C7_amended (c : Category) (world : List WObj) :
    (c ≠ .base → count_category c world = 0 →
      scarcity_multiplier c world = SCARCITY_MAX)
    ∧ (c ≠ .base → 0 < count_category c world →
      scarcity_multiplier c world =
        clampQ SCARCITY_MIN SCARCITY_MAX
          ((SCARCITY_BASELINES c : ℚ) / (count_category c world : ℚ)))
    ∧ scarcity_multiplier .base world = 1 := by
  refine ⟨?_, ?_, ?_⟩
  · intro _ h0
    simp [scarcity_multiplier, h0]
  · intro _ hpos
    simp [scarcity_multiplier, clampQ, Nat.le_zero, hpos.ne']
  · norm_num [scarcity_multiplier, count_category, SCARCITY_BASELINES,
      SCARCITY_MIN, SCARCITY_MAX]

/-- C7 amended witness: in the empty world the cursed count is 0 and the
multiplier is MAX (3.0), while the base multiplier is 1.0. -/
theorem C7_amended_witness :
    scarcity_multiplier .cursed [] = SCARCITY_MAX
    ∧ scarcity_multiplier .base [] = 1 :=
  ⟨(C7_amended .cursed []).1 (by decide) rfl, (C7_amended .cursed []).2.2⟩

end GemsMud
